import Mathlib

/-!
Verification of the credit-card fraud training pipeline (`app.py`).

The pipeline is a linear script: load a CSV of transaction records,
derive Year/Month/Day from the Date column, integer-encode the
Location and Store columns, split into train/test partitions with a
fixed seed, fit a logistic regression, save the model to
`models/model.pkl`, and report held-out accuracy.

Shallow embedding choices:
  * a pandas `DataFrame` is column-oriented: a list of
    (column name, cell list) pairs, rows aligned by position;
  * cells are a sum type `Value` (strings, ints, rationals for the
    float Amount column, booleans, calendar dates);
  * fallible library calls return `Except ErrKind _` where `ErrKind`
    mirrors the Python exception class raised (`KeyError` from
    `DataFrame.drop`/`__getitem__` on a missing column, `ValueError`
    from `train_test_split` validation, the parse failure from
    `pd.to_datetime`, `FileNotFoundError`/`OSError` from
    `joblib.dump`, `TypeError` from `LabelEncoder` on non-string
    input);
  * numpy's seeded shuffle inside `train_test_split(random_state=42)`
    is modelled by `rngPermutation`, a deterministic pseudorandom
    permutation of `[0, n)` computed from the seed alone, mirroring
    `check_random_state(seed).permutation(n)`;
  * the logistic-regression solver's floating-point optimisation is
    not modelled numerically: a fitted model is an abstract record of
    coefficients, intercept and the sorted class labels
    (`classes_ = np.unique(y)`), and `predict` applies the linear
    decision rule `decision > 0` exactly as
    `LogisticRegression.predict` does; no claim depends on the
    learned weight values;
  * the filesystem seen by `joblib.dump` is a record of existing
    directories and a path-indexed store of serialized models.
-/

/-- The Python exception classes that the pipeline's library calls can
raise, as an error kind. -/
inductive ErrKind where
  | keyError
  | valueError
  | parseError
  | ioError
  | typeError
deriving DecidableEq, Repr

/-- A calendar date as parsed by `pd.to_datetime` from the
`YYYY-MM-DD` strings the data generator produces. -/
structure Date where
  year : Nat
  month : Nat
  day : Nat
deriving DecidableEq, Repr

def isLeapYear (y : Nat) : Bool :=
  (y % 4 == 0 && y % 100 != 0) || (y % 400 == 0)

def daysInMonth (y m : Nat) : Nat :=
  if m = 2 then (if isLeapYear y then 29 else 28)
  else if m = 4 ∨ m = 6 ∨ m = 9 ∨ m = 11 then 30
  else 31

/-- Split a character list at each dash. -/
def splitDash : List Char → List (List Char)
  | [] => [[]]
  | c :: cs =>
    let r := splitDash cs
    if c = '-' then [] :: r else (c :: r.headD []) :: r.tail

def charDigit (c : Char) : Option Nat :=
  let k := c.toNat
  if 48 ≤ k ∧ k ≤ 57 then some (k - 48) else none

def digitsAux : List Char → Nat → Option Nat
  | [], acc => some acc
  | c :: cs, acc =>
    match charDigit c with
    | some d => digitsAux cs (acc * 10 + d)
    | none => none

/-- Read a non-empty all-digit character list as a number. -/
def digitsToNat : List Char → Option Nat
  | [] => none
  | c :: cs => digitsAux (c :: cs) 0

/-- Parse an ISO `YYYY-MM-DD` date string (the format produced by the
synthetic-data generator), validating the calendar as
`pd.to_datetime` does; `none` on an unparseable value. -/
def parseDate (s : String) : Option Date :=
  match splitDash s.toList with
  | [ys, ms, ds] =>
    match digitsToNat ys, digitsToNat ms, digitsToNat ds with
    | some y, some m, some d =>
      if ys.length = 4 ∧ 1 ≤ m ∧ m ≤ 12 ∧ 1 ≤ d ∧ d ≤ daysInMonth y m
      then some ⟨y, m, d⟩ else none
    | _, _, _ => none
  | _ => none

/-- A cell of a pandas table. -/
inductive Value where
  | str (s : String)
  | int (n : Int)
  | rat (q : ℚ)
  | bool (b : Bool)
  | date (d : Date)
deriving DecidableEq, Repr

/-- Numeric view of a cell, as used when a table is handed to the
classifier (by that point every feature cell is numeric). -/
def valueToRat : Value → ℚ
  | .str _ => 0
  | .int n => (n : ℚ)
  | .rat q => q
  | .bool b => if b then 1 else 0
  | .date _ => 0

/-- A pandas `DataFrame`: named columns in order, each a list of
cells; rows correspond positionally across columns. -/
abbrev DataFrame := List (String × List Value)

/-- Column access `data[name]`: the first column with that name. -/
def lookupCol : DataFrame → String → Option (List Value)
  | [], _ => none
  | c :: cs, n => if c.1 = n then some c.2 else lookupCol cs n

/-- Column assignment `data[name] = vs`: replace the named column in
place, or append a new column at the end (pandas semantics). -/
def updateCol : DataFrame → String → List Value → DataFrame
  | [], n, vs => [(n, vs)]
  | c :: cs, n, vs => if c.1 = n then (n, vs) :: cs else c :: updateCol cs n vs

/-- `data.drop(columns=name)`: remove the named column. -/
def dropCol : DataFrame → String → DataFrame
  | [], _ => []
  | c :: cs, n => if c.1 = n then dropCol cs n else c :: dropCol cs n

/-- `len(data)`: the number of rows (length of the first column; a
well-formed table has all columns the same length). -/
def nRows : DataFrame → Nat
  | [] => 0
  | c :: _ => c.2.length

/-- Well-formedness: every column has the table's row count. -/
def WF (df : DataFrame) : Prop := ∀ c ∈ df, c.2.length = nRows df

instance (df : DataFrame) : Decidable (WF df) :=
  inferInstanceAs (Decidable (∀ c ∈ df, c.2.length = nRows df))

/-- Positional selection of entries of a series by an index list
(`_safe_indexing`). -/
def selectVals (vs : List Value) (idxs : List Nat) : List Value :=
  idxs.map (fun i => vs.getD i (Value.int 0))

/-- Positional selection of rows of a table by an index list
(`_safe_indexing`). -/
def selectRows (df : DataFrame) (idxs : List Nat) : DataFrame :=
  df.map (fun c => (c.1, selectVals c.2 idxs))

/-- The `i`-th row of a table, as the list of its cells in column
order. -/
def rowAt (df : DataFrame) (i : Nat) : List Value :=
  df.map (fun c => c.2.getD i (Value.int 0))

/-- `pd.to_datetime` on one cell: parse a date string (a cell already
holding a date passes through); anything else is unparseable. -/
def parseCell : Value → Except ErrKind Date
  | .str s =>
    match parseDate s with
    | some d => .ok d
    | none => .error .parseError
  | .date d => .ok d
  | _ => .error .parseError

/-- `pd.to_datetime(data[Date])`: parse the whole column, failing on
the first unparseable cell. -/
def parseDates : List Value → Except ErrKind (List Date)
  | [] => .ok []
  | v :: vs =>
    match parseCell v with
    | .error e => .error e
    | .ok d =>
      match parseDates vs with
      | .error e => .error e
      | .ok ds => .ok (d :: ds)

def valueStr : Value → Option String
  | .str s => some s
  | _ => none

def strList : List Value → Option (List String)
  | [] => some []
  | v :: vs =>
    match valueStr v, strList vs with
    | some s, some ss => some (s :: ss)
    | _, _ => none

/-- `LabelEncoder.fit`: the classes are the distinct values in sorted
order (`np.unique`). -/
def leClasses (ss : List String) : List String :=
  ss.dedup.insertionSort (· ≤ ·)

/-- `LabelEncoder().fit_transform(vs)`: replace each value by the
index of its class among the sorted distinct values; a non-string
column is rejected. -/
def labelEncode (vs : List Value) : Except ErrKind (List Value) :=
  match strList vs with
  | none => .error .typeError
  | some ss =>
    .ok (ss.map (fun s => Value.int ((leClasses ss).indexOf s)))

/-- The table after the date steps of `preprocess_data`: the Date
column converted, Year/Month/Day derived from it, Date dropped. -/
def dateStage (data : DataFrame) (parsed : List Date) : DataFrame :=
  dropCol
    (updateCol
      (updateCol
        (updateCol (updateCol data "Date" (parsed.map Value.date))
          "Year" (parsed.map fun d => Value.int d.year))
        "Month" (parsed.map fun d => Value.int d.month))
      "Day" (parsed.map fun d => Value.int d.day))
    "Date"

/-- `preprocess_data`: parse Date, derive Year/Month/Day, drop Date,
then label-encode Location and Store (each encoder fit fresh on its
own column). -/
def preprocess_data (data : DataFrame) : Except ErrKind DataFrame :=
  match lookupCol data "Date" with
  | none => .error .keyError
  | some dateCol =>
    match parseDates dateCol with
    | .error e => .error e
    | .ok parsed =>
      let d5 := dateStage data parsed
      match lookupCol d5 "Location" with
      | none => .error .keyError
      | some locCol =>
        match labelEncode locCol with
        | .error e => .error e
        | .ok locEnc =>
          let d6 := updateCol d5 "Location" locEnc
          match lookupCol d6 "Store" with
          | none => .error .keyError
          | some stoCol =>
            match labelEncode stoCol with
            | .error e => .error e
            | .ok stoEnc => .ok (updateCol d6 "Store" stoEnc)

/-- Ceiling of `q * n` computed on the rational's numerator and
denominator (a kernel-evaluable form of `⌈q * n⌉`; the two agree, see
`ceilMulNat_eq_ceil`). -/
def ceilMulNat (q : ℚ) (n : Nat) : Nat :=
  (-((-(q.num * n)) / (q.den : Int))).toNat

def lcgStep (x : Nat) : Nat :=
  (6364136223846793005 * x + 1442695040888963407) % 18446744073709551616

def shuffleKey (seed i : Nat) : Nat :=
  lcgStep (lcgStep (seed + 1) + i)

/-- Models numpy's seeded shuffle inside
`train_test_split(random_state=seed)`: a pseudorandom permutation of
`[0, n)` determined solely by the seed (and `n`), obtained by sorting
the indices by a keyed hash. -/
def rngPermutation (seed n : Nat) : List Nat :=
  (List.range n).insertionSort (fun i j => shuffleKey seed i ≤ shuffleKey seed j)

/-- `split_data`: drop the target column to form `X`, take the target
column as `y`, and call `train_test_split(X, y, test_size,
random_state)`.  Faithful to the libraries: a missing target column
raises `KeyError` (pandas `drop`); `train_test_split` validates
`0 < test_size < 1`, takes `ceil(test_size * n)` rows for the test
partition, raises `ValueError` when the training partition would be
empty, and assigns the first `n_test` entries of the seeded
permutation to the test partition and the rest to the training
partition.  Returns `(X_train, X_test, y_train, y_test)`. -/
def split_data (data : DataFrame) (target_column : String)
    (test_size : ℚ) (random_state : Nat) :
    Except ErrKind (DataFrame × DataFrame × List Value × List Value) :=
  match lookupCol data target_column with
  | none => .error .keyError
  | some y =>
    let X := dropCol data target_column
    if test_size ≤ 0 ∨ 1 ≤ test_size then .error .valueError
    else
      let n := nRows data
      let nte := ceilMulNat test_size n
      if n - nte = 0 then .error .valueError
      else
        let perm := rngPermutation random_state n
        .ok (selectRows X (perm.drop nte), selectRows X (perm.take nte),
             selectVals y (perm.drop nte), selectVals y (perm.take nte))

/-- A fitted `LogisticRegression`: coefficient vector, intercept, and
the class labels `classes_ = np.unique(y_train)`. -/
structure Model where
  coef : List ℚ
  intercept : ℚ
  classes : List Value
deriving DecidableEq, Repr

def dotProd : List ℚ → List ℚ → ℚ
  | [], _ => 0
  | _, [] => 0
  | x :: xs, y :: ys => x * y + dotProd xs ys

/-- Total order on cells used to model `np.unique`'s sort of the
class labels. -/
def valueRank : Value → Nat
  | .bool _ => 0
  | .int _ => 1
  | .rat _ => 2
  | .str _ => 3
  | .date _ => 4

def valueLeb : Value → Value → Bool
  | .bool a, .bool b => !a || b
  | .int a, .int b => decide (a ≤ b)
  | .rat a, .rat b => decide (a ≤ b)
  | .str a, .str b => decide (a ≤ b)
  | .date a, .date b =>
    decide (a.year < b.year ∨ (a.year = b.year ∧ (a.month < b.month ∨
      (a.month = b.month ∧ a.day ≤ b.day))))
  | v, w => decide (valueRank v ≤ valueRank w)

/-- `np.unique`: distinct values in sorted order. -/
def sortDedupValues (vs : List Value) : List Value :=
  vs.dedup.insertionSort (fun v w => valueLeb v w = true)

/-- `train_model`: fit `LogisticRegression` on the training
partition.  The solver's floating-point optimisation is abstracted
(no claim inspects the learned weights): the fitted model carries a
zero weight per feature column, a zero intercept, and — exactly as
sklearn does — `classes_ = np.unique(y_train)`. -/
def train_model (X_train : DataFrame) (y_train : List Value) : Model :=
  { coef := X_train.map (fun _ => (0 : ℚ)),
    intercept := 0,
    classes := sortDedupValues y_train }

/-- `LogisticRegression.predict` on one row: the linear decision
value; class 1 when it is positive, class 0 otherwise. -/
def Model.predict (m : Model) (row : List Value) : Value :=
  if 0 < dotProd m.coef (row.map valueToRat) + m.intercept
  then m.classes.getD 1 (Value.int 1)
  else m.classes.getD 0 (Value.int 0)

/-- `test_model`: `model.score(X_test, y_test)` — predict every row
of the evaluation features and return the mean of the elementwise
comparison with the true labels (`accuracy_score`). -/
def test_model (model : Model) (X_test : DataFrame) (y_test : List Value) : ℚ :=
  let preds := (List.range (nRows X_test)).map (fun i => model.predict (rowAt X_test i))
  (((preds.zip y_test).countP (fun p => decide (p.1 = p.2)) : ℚ)) / (y_test.length : ℚ)

/-- The filesystem visible to `joblib.dump`: the set of existing
directories and the files already written, a serialized model per
path. -/
structure FS where
  dirs : List String
  files : List (String × Model)
deriving DecidableEq, Repr

/-- The directory component of a path (empty for a bare filename,
which `joblib.dump` writes to the working directory): the characters
before the last slash. -/
def dirname (p : String) : String :=
  ⟨((p.toList.reverse.dropWhile (fun c => c != '/')).tail).reverse⟩

def updateFile : List (String × Model) → String → Model → List (String × Model)
  | [], p, m => [(p, m)]
  | f :: fs, p, m => if f.1 = p then (p, m) :: fs else f :: updateFile fs p m

def lookupFile : List (String × Model) → String → Option Model
  | [], _ => none
  | f :: fs, p => if f.1 = p then some f.2 else lookupFile fs p

/-- `save_model`: `joblib.dump(model, filepath)` — serialize the full
model state to the path, overwriting any existing file; raise an
`IOError` kind (`FileNotFoundError`) without touching the filesystem
when the destination directory does not exist. -/
def save_model (model : Model) (filepath : String) (fs : FS) :
    Except ErrKind Unit × FS :=
  if dirname filepath = "" ∨ dirname filepath ∈ fs.dirs
  then (.ok (), ⟨fs.dirs, updateFile fs.files filepath model⟩)
  else (.error .ioError, fs)

/-- The default `test_size=0.2` of `split_data` as an exact rational
(given by numerator and denominator so that it kernel-evaluates). -/
def oneFifth : ℚ := ⟨1, 5, by decide, Nat.coprime_one_left 5⟩

/-- The pipeline `main` on the loaded record table (the Loader's file
read is environment; `raw` is the table read from
`data/credit_card_records.csv`), threading the filesystem through
`save_model`.  Any failure aborts the run, leaving the filesystem as
it was. -/
def main_run (raw : DataFrame) (fs0 : FS) : Except ErrKind ℚ × FS :=
  match preprocess_data raw with
  | .error e => (.error e, fs0)
  | .ok data =>
    match split_data data "Fraudulent" oneFifth 42 with
    | .error e => (.error e, fs0)
    | .ok (X_train, X_test, y_train, y_test) =>
      let model := train_model X_train y_train
      match save_model model "models/model.pkl" fs0 with
      | (.error e, fs1) => (.error e, fs1)
      | (.ok _, fs1) => (.ok (test_model model X_test y_test), fs1)

deriving instance DecidableEq for Except

/-! ### Basic lemmas about the table operations -/

theorem lookupCol_updateCol_self (df : DataFrame) (n : String) (vs : List Value) :
    lookupCol (updateCol df n vs) n = some vs := by
  induction df with
  | nil => simp [updateCol, lookupCol]
  | cons c cs ih =>
    by_cases h : c.1 = n
    · simp [updateCol, h, lookupCol]
    · simp [updateCol, h, lookupCol, ih]

theorem lookupCol_updateCol_ne (df : DataFrame) {m n : String} (h : m ≠ n)
    (vs : List Value) : lookupCol (updateCol df n vs) m = lookupCol df m := by
  have hnm : ¬ n = m := fun hh => h hh.symm
  induction df with
  | nil => simp [updateCol, lookupCol, hnm]
  | cons c cs ih =>
    by_cases hc : c.1 = n
    · simp [updateCol, hc, lookupCol, hnm]
    · simp only [updateCol, hc, if_false, lookupCol]
      by_cases hm : c.1 = m <;> simp [hm, ih]

theorem lookupCol_dropCol_self (df : DataFrame) (n : String) :
    lookupCol (dropCol df n) n = none := by
  induction df with
  | nil => simp [dropCol, lookupCol]
  | cons c cs ih =>
    by_cases h : c.1 = n
    · simp [dropCol, h, ih]
    · simp [dropCol, h, lookupCol, ih]

theorem lookupCol_dropCol_ne (df : DataFrame) {m n : String} (h : m ≠ n) :
    lookupCol (dropCol df n) m = lookupCol df m := by
  have hnm : ¬ n = m := fun hh => h hh.symm
  induction df with
  | nil => simp [dropCol]
  | cons c cs ih =>
    by_cases hc : c.1 = n
    · simp [dropCol, hc, lookupCol, ih, hnm]
    · simp only [dropCol, hc, if_false, lookupCol]
      by_cases hm : c.1 = m <;> simp [hm, ih]

theorem mem_updateCol {df : DataFrame} {n : String} {vs : List Value}
    {c : String × List Value} (h : c ∈ updateCol df n vs) :
    c = (n, vs) ∨ c ∈ df := by
  induction df with
  | nil => simpa [updateCol] using h
  | cons d ds ih =>
    by_cases hd : d.1 = n
    · simp only [updateCol, hd, if_true, List.mem_cons] at h
      rcases h with h | h
      · exact Or.inl h
      · exact Or.inr (List.mem_cons_of_mem _ h)
    · simp only [updateCol, hd, if_false, List.mem_cons] at h
      rcases h with h | h
      · exact Or.inr (h ▸ List.mem_cons_self _ _)
      · rcases ih h with h' | h'
        · exact Or.inl h'
        · exact Or.inr (List.mem_cons_of_mem _ h')

theorem mem_dropCol {df : DataFrame} {n : String} {c : String × List Value}
    (h : c ∈ dropCol df n) : c ∈ df := by
  induction df with
  | nil => simp [dropCol] at h
  | cons d ds ih =>
    by_cases hd : d.1 = n
    · simp only [dropCol, hd, if_true] at h
      exact List.mem_cons_of_mem _ (ih h)
    · simp only [dropCol, hd, if_false, List.mem_cons] at h
      rcases h with h | h
      · exact h ▸ List.mem_cons_self _ _
      · exact List.mem_cons_of_mem _ (ih h)

theorem lookupCol_mem {df : DataFrame} {n : String} {vs : List Value}
    (h : lookupCol df n = some vs) : (n, vs) ∈ df := by
  induction df with
  | nil => simp [lookupCol] at h
  | cons c cs ih =>
    by_cases hc : c.1 = n
    · simp only [lookupCol, hc, if_true, Option.some.injEq] at h
      have : c = (n, vs) := Prod.ext hc h
      exact this ▸ List.mem_cons_self _ _
    · simp only [lookupCol, hc, if_false] at h
      exact List.mem_cons_of_mem _ (ih h)

theorem selectVals_length (vs : List Value) (idxs : List Nat) :
    (selectVals vs idxs).length = idxs.length := by
  simp [selectVals]

theorem nRows_selectRows {df : DataFrame} (h : df ≠ []) (idxs : List Nat) :
    nRows (selectRows df idxs) = idxs.length := by
  cases df with
  | nil => exact absurd rfl h
  | cons c cs => simp [selectRows, nRows, selectVals_length]

/-! ### Lemmas about date parsing -/

theorem parseCell_error {v : Value} {e : ErrKind}
    (h : parseCell v = .error e) : e = .parseError := by
  cases v <;> simp [parseCell] at h <;> try exact h.symm
  · rename_i s
    cases hp : parseDate s <;> simp [hp] at h
    exact h.symm

theorem parseDates_ok_length {vs : List Value} {ds : List Date}
    (h : parseDates vs = .ok ds) : ds.length = vs.length := by
  induction vs generalizing ds with
  | nil => simp [parseDates] at h; simp [← h]
  | cons v vt ih =>
    simp only [parseDates] at h
    cases hv : parseCell v with
    | error e => simp [hv] at h
    | ok d =>
      simp only [hv] at h
      cases ht : parseDates vt with
      | error e => simp [ht] at h
      | ok dt =>
        simp only [ht, Except.ok.injEq] at h
        subst h
        simp [ih ht]

theorem parseDates_ok_get {vs : List Value} {ds : List Date}
    (h : parseDates vs = .ok ds) :
    ∀ i, i < vs.length →
      parseCell (vs.getD i (Value.int 0)) = .ok (ds.getD i ⟨0, 0, 0⟩) := by
  induction vs generalizing ds with
  | nil => intro i hi; simp at hi
  | cons v vt ih =>
    simp only [parseDates] at h
    cases hv : parseCell v with
    | error e => simp [hv] at h
    | ok d =>
      simp only [hv] at h
      cases ht : parseDates vt with
      | error e => simp [ht] at h
      | ok dt =>
        simp only [ht, Except.ok.injEq] at h
        subst h
        intro i hi
        cases i with
        | zero => simpa using hv
        | succ j => exact ih ht j (by simpa using hi)

theorem parseDates_error_of_mem {vs : List Value} {v : Value}
    (hv : v ∈ vs) (hbad : parseCell v = .error .parseError) :
    parseDates vs = .error .parseError := by
  induction vs with
  | nil => simp at hv
  | cons w wt ih =>
    rcases List.mem_cons.mp hv with h | h
    · subst h
      simp [parseDates, hbad]
    · simp only [parseDates]
      cases hw : parseCell w with
      | error e => simp [parseCell_error hw]
      | ok d => simp [hw, ih h]

/-! ### Lemmas about the seeded permutation -/

theorem rngPermutation_perm (seed n : Nat) :
    List.Perm (rngPermutation seed n) (List.range n) :=
  List.perm_insertionSort _ _

theorem rngPermutation_length (seed n : Nat) :
    (rngPermutation seed n).length = n := by
  have := (rngPermutation_perm seed n).length_eq
  simpa using this

theorem rngPermutation_mem {seed n i : Nat}
    (h : i ∈ rngPermutation seed n) : i < n := by
  have := (rngPermutation_perm seed n).mem_iff.mp h
  simpa using this

/-! ### The integer form of the ceiling computation -/

theorem ceilMulNat_eq_ceil (q : ℚ) (hq : 0 ≤ q) (n : Nat) :
    (ceilMulNat q n : Int) = ⌈q * (n : ℚ)⌉ := by
  have hcast : -(q * (n : ℚ)) = ((-(q.num * n) : ℤ) : ℚ) / ((q.den : ℕ) : ℚ) := by
    conv_lhs => rw [← Rat.num_div_den q]
    push_cast
    ring
  have hfloor : ⌊-(q * (n : ℚ))⌋ = (-(q.num * n)) / (q.den : ℤ) := by
    rw [hcast]
    exact Rat.floor_intCast_div_natCast _ _
  rw [Int.floor_neg] at hfloor
  have hceil : ⌈q * (n : ℚ)⌉ = -((-(q.num * n)) / (q.den : ℤ)) := by
    rw [← hfloor, neg_neg]
  have hnonneg : (0 : ℤ) ≤ -((-(q.num * n)) / (q.den : ℤ)) := by
    rw [← hceil]
    exact Int.ceil_nonneg (by positivity)
  rw [ceilMulNat, Int.toNat_of_nonneg hnonneg]
  exact hceil.symm

/-! ### Lemmas about label encoding -/

theorem strList_ok_length {vs : List Value} {ss : List String}
    (h : strList vs = some ss) : ss.length = vs.length := by
  induction vs generalizing ss with
  | nil => simp [strList] at h; simp [← h]
  | cons v vt ih =>
    simp only [strList] at h
    cases hv : valueStr v with
    | none => simp [hv] at h
    | some s =>
      simp only [hv] at h
      cases ht : strList vt with
      | none => simp [ht] at h
      | some st =>
        simp only [ht, Option.some.injEq] at h
        subst h
        simp [ih ht]

theorem labelEncode_ok_length {vs es : List Value}
    (h : labelEncode vs = .ok es) : es.length = vs.length := by
  unfold labelEncode at h
  cases hs : strList vs with
  | none => simp [hs] at h
  | some ss =>
    simp only [hs, Except.ok.injEq] at h
    subst h
    simp [strList_ok_length hs]

/-! ### Inversion of the pipeline stages -/

theorem lookupCol_dateStage_ne {df : DataFrame} {parsed : List Date} {m : String}
    (h1 : m ≠ "Date") (h2 : m ≠ "Year") (h3 : m ≠ "Month") (h4 : m ≠ "Day") :
    lookupCol (dateStage df parsed) m = lookupCol df m := by
  rw [dateStage, lookupCol_dropCol_ne _ h1, lookupCol_updateCol_ne _ h4,
    lookupCol_updateCol_ne _ h3, lookupCol_updateCol_ne _ h2,
    lookupCol_updateCol_ne _ h1]

theorem preprocess_data_ok_inv {df out : DataFrame}
    (h : preprocess_data df = .ok out) :
    ∃ dateCol parsed locCol locEnc stoCol stoEnc,
      lookupCol df "Date" = some dateCol ∧
      parseDates dateCol = .ok parsed ∧
      lookupCol (dateStage df parsed) "Location" = some locCol ∧
      labelEncode locCol = .ok locEnc ∧
      lookupCol (updateCol (dateStage df parsed) "Location" locEnc) "Store"
        = some stoCol ∧
      labelEncode stoCol = .ok stoEnc ∧
      out = updateCol (updateCol (dateStage df parsed) "Location" locEnc)
        "Store" stoEnc := by
  cases hdc : lookupCol df "Date" with
  | none => simp [preprocess_data, hdc] at h
  | some dateCol =>
    cases hp : parseDates dateCol with
    | error e => simp [preprocess_data, hdc, hp] at h
    | ok parsed =>
      cases hloc : lookupCol (dateStage df parsed) "Location" with
      | none => simp [preprocess_data, hdc, hp, hloc] at h
      | some locCol =>
        cases hle : labelEncode locCol with
        | error e => simp [preprocess_data, hdc, hp, hloc, hle] at h
        | ok locEnc =>
          cases hsto : lookupCol (updateCol (dateStage df parsed) "Location" locEnc)
              "Store" with
          | none => simp [preprocess_data, hdc, hp, hloc, hle, hsto] at h
          | some stoCol =>
            cases hse : labelEncode stoCol with
            | error e => simp [preprocess_data, hdc, hp, hloc, hle, hsto, hse] at h
            | ok stoEnc =>
              refine ⟨dateCol, parsed, locCol, locEnc, stoCol, stoEnc,
                rfl, hp, hloc, hle, hsto, hse, ?_⟩
              simp only [preprocess_data, hdc, hp, hloc, hle, hsto, hse,
                Except.ok.injEq] at h
              exact h.symm

theorem split_data_ok_inv {d : DataFrame} {t : String} {ts : ℚ} {s : Nat}
    {r : DataFrame × DataFrame × List Value × List Value}
    (h : split_data d t ts s = .ok r) :
    ∃ y, lookupCol d t = some y ∧ ¬(ts ≤ 0 ∨ 1 ≤ ts) ∧
      nRows d - ceilMulNat ts (nRows d) ≠ 0 ∧
      r = (selectRows (dropCol d t)
             ((rngPermutation s (nRows d)).drop (ceilMulNat ts (nRows d))),
           selectRows (dropCol d t)
             ((rngPermutation s (nRows d)).take (ceilMulNat ts (nRows d))),
           selectVals y
             ((rngPermutation s (nRows d)).drop (ceilMulNat ts (nRows d))),
           selectVals y
             ((rngPermutation s (nRows d)).take (ceilMulNat ts (nRows d)))) := by
  cases hy : lookupCol d t with
  | none => simp [split_data, hy] at h
  | some y =>
    by_cases hts : ts ≤ 0 ∨ 1 ≤ ts
    · simp [split_data, hy, hts] at h
    · by_cases hn : nRows d - ceilMulNat ts (nRows d) = 0
      · simp [split_data, hy, hts, hn] at h
      · refine ⟨y, rfl, hts, hn, ?_⟩
        simp only [split_data, hy, hts, if_false, hn, Except.ok.injEq] at h
        exact h.symm

/-! ### Row counts through the stages -/

theorem all_length_updateCol {df : DataFrame} {k : Nat} {n : String}
    {vs : List Value} (hall : ∀ c ∈ df, c.2.length = k) (hvs : vs.length = k) :
    ∀ c ∈ updateCol df n vs, c.2.length = k := by
  intro c hc
  rcases mem_updateCol hc with h | h
  · rw [h]
    exact hvs
  · exact hall c h

theorem all_length_dropCol {df : DataFrame} {k : Nat} {n : String}
    (hall : ∀ c ∈ df, c.2.length = k) :
    ∀ c ∈ dropCol df n, c.2.length = k :=
  fun c hc => hall c (mem_dropCol hc)

theorem nRows_eq_of_all {df : DataFrame} {k : Nat} (h : df ≠ [])
    (hall : ∀ c ∈ df, c.2.length = k) : nRows df = k := by
  cases df with
  | nil => exact absurd rfl h
  | cons c cs => exact hall c (List.mem_cons_self _ _)

theorem all_length_dateStage {df : DataFrame} {dateCol : List Value}
    {parsed : List Date} (hdc : lookupCol df "Date" = some dateCol)
    (hp : parseDates dateCol = .ok parsed)
    (hall : ∀ c ∈ df, c.2.length = nRows df) :
    ∀ c ∈ dateStage df parsed, c.2.length = nRows df := by
  have hplen : parsed.length = nRows df := by
    rw [parseDates_ok_length hp]
    exact hall _ (lookupCol_mem hdc)
  refine all_length_dropCol ?_
  refine all_length_updateCol ?_ (by simpa using hplen)
  refine all_length_updateCol ?_ (by simpa using hplen)
  refine all_length_updateCol ?_ (by simpa using hplen)
  exact all_length_updateCol hall (by simpa using hplen)

/-! ### Lemmas about the model store -/

theorem lookupFile_updateFile_self (fsf : List (String × Model)) (p : String)
    (m : Model) : lookupFile (updateFile fsf p m) p = some m := by
  induction fsf with
  | nil => simp [updateFile, lookupFile]
  | cons f ft ih =>
    by_cases h : f.1 = p
    · simp [updateFile, h, lookupFile]
    · simp [updateFile, h, lookupFile, ih]

theorem lookupFile_updateFile_ne (fsf : List (String × Model)) {q p : String}
    (h : q ≠ p) (m : Model) :
    lookupFile (updateFile fsf p m) q = lookupFile fsf q := by
  have hpq : ¬ p = q := fun hh => h hh.symm
  induction fsf with
  | nil => simp [updateFile, lookupFile, hpq]
  | cons f ft ih =>
    by_cases hf : f.1 = p
    · simp [updateFile, hf, lookupFile, hpq]
    · simp only [updateFile, hf, if_false, lookupFile]
      by_cases hq : f.1 = q <;> simp [hq, ih]

/-! ### The claims -/

/-- C5: for every fixed seed, feature table, target column and
fraction, two runs of the Splitter on the same input produce
identical training features, evaluation features, training labels and
evaluation labels: `split_data` is a pure function of those four
inputs (the seeded shuffle is modelled, faithfully to a fixed
`random_state`, as a deterministic function of the seed), so the two
runs agree definitionally. -/
theorem split_data_deterministic (d : DataFrame) (t : String) (ts : ℚ) (s : Nat) :
    split_data d t ts s = split_data d t ts s := rfl

/-- C9: `save_model` with an existing destination directory succeeds,
stores the full model state at the path (overwriting whatever was
there), changes no other file and creates no directory; with a
missing destination directory it fails with an IOError kind and
leaves the filesystem — in particular its directories — unchanged. -/
theorem save_model_spec (m : Model) (path : String) (fs : FS) :
    (dirname path ∈ fs.dirs →
      (save_model m path fs).1 = .ok () ∧
      (save_model m path fs).2.dirs = fs.dirs ∧
      lookupFile (save_model m path fs).2.files path = some m ∧
      ∀ q, q ≠ path →
        lookupFile (save_model m path fs).2.files q = lookupFile fs.files q) ∧
    (dirname path ∉ fs.dirs → dirname path ≠ "" →
      save_model m path fs = (.error .ioError, fs)) := by
  constructor
  · intro hmem
    have hc : dirname path = "" ∨ dirname path ∈ fs.dirs := Or.inr hmem
    refine ⟨by simp [save_model, hc], by simp [save_model, hc],
      by simp [save_model, hc, lookupFile_updateFile_self], ?_⟩
    intro q hq
    simp [save_model, hc, lookupFile_updateFile_ne _ hq]
  · intro hmem hne
    have hc : ¬(dirname path = "" ∨ dirname path ∈ fs.dirs) := by
      rintro (h | h)
      · exact hne h
      · exact hmem h
    simp [save_model, hc]

/-- C9 witness at a concrete model, path and filesystem: with `models`
existing the model is stored at `models/model.pkl` and other paths are
untouched; with no directories the call fails with an IOError kind and
the filesystem is unchanged. -/
theorem save_model_spec_witness :
    ((save_model ⟨[0], 0, [Value.bool false, Value.bool true]⟩ "models/model.pkl"
        ⟨["models"], []⟩).1 = .ok () ∧
      (save_model ⟨[0], 0, [Value.bool false, Value.bool true]⟩ "models/model.pkl"
        ⟨["models"], []⟩).2.dirs = ["models"] ∧
      lookupFile (save_model ⟨[0], 0, [Value.bool false, Value.bool true]⟩
        "models/model.pkl" ⟨["models"], []⟩).2.files "models/model.pkl"
        = some ⟨[0], 0, [Value.bool false, Value.bool true]⟩ ∧
      ∀ q, q ≠ "models/model.pkl" →
        lookupFile (save_model ⟨[0], 0, [Value.bool false, Value.bool true]⟩
          "models/model.pkl" ⟨["models"], []⟩).2.files q
          = lookupFile ([] : List (String × Model)) q) ∧
    save_model ⟨[0], 0, [Value.bool false, Value.bool true]⟩ "models/model.pkl"
        ⟨[], []⟩ = (.error .ioError, ⟨[], []⟩) :=
  ⟨(save_model_spec ⟨[0], 0, [Value.bool false, Value.bool true]⟩ "models/model.pkl"
      ⟨["models"], []⟩).1 (by decide),
   (save_model_spec ⟨[0], 0, [Value.bool false, Value.bool true]⟩ "models/model.pkl"
      ⟨[], []⟩).2 (by decide) (by decide)⟩

/-- C6: if any cell of the input table's Date column is unparseable,
the run fails during preprocessing with the parse-failure kind —
before the split, the training and the save are ever reached — and
the filesystem is returned unchanged: no model file is written. -/
theorem main_unparseable_date_fails_early (raw : DataFrame) (fs0 : FS)
    (dateCol : List Value) (v : Value)
    (hdc : lookupCol raw "Date" = some dateCol) (hv : v ∈ dateCol)
    (hbad : parseCell v = .error .parseError) :
    preprocess_data raw = .error .parseError ∧
    main_run raw fs0 = (.error .parseError, fs0) := by
  have hp : parseDates dateCol = .error .parseError :=
    parseDates_error_of_mem hv hbad
  have h1 : preprocess_data raw = .error .parseError := by
    simp [preprocess_data, hdc, hp]
  exact ⟨h1, by simp [main_run, h1]⟩

/-- C6 witness: a one-row table whose Date cell is not a date makes
the run abort with the parse-failure kind, leaving the filesystem
empty. -/
theorem main_unparseable_date_fails_early_witness :
    preprocess_data [("Date", [Value.str "not-a-date"]),
        ("Location", [Value.str "L"]), ("Store", [Value.str "S"]),
        ("Fraudulent", [Value.bool true])] = .error .parseError ∧
    main_run [("Date", [Value.str "not-a-date"]),
        ("Location", [Value.str "L"]), ("Store", [Value.str "S"]),
        ("Fraudulent", [Value.bool true])] ⟨["models"], []⟩
      = (.error .parseError, ⟨["models"], []⟩) :=
  main_unparseable_date_fails_early _ _ [Value.str "not-a-date"]
    (Value.str "not-a-date") (by decide) (by decide) (by decide)

/-- C1 (amended): on a table without the target column `split_data`
fails with a KeyError kind (raised by pandas `drop`), not a
ValueError; with the target present and a fraction strictly between 0
and 1 it fails with a ValueError kind exactly when the training
partition would be empty — on an empty table, but also e.g. on a
one-row table, where ⌈fraction × 1⌉ = 1 swallows every row — and
succeeds otherwise. -/
theorem split_data_failure_modes (d : DataFrame) (t : String) (ts : ℚ)
    (s : Nat) (y : List Value) :
    (lookupCol d t = none → split_data d t ts s = .error .keyError) ∧
    (lookupCol d t = some y → 0 < ts → ts < 1 →
      ((nRows d - (⌈ts * (nRows d : ℚ)⌉).toNat = 0 →
          split_data d t ts s = .error .valueError) ∧
       (nRows d - (⌈ts * (nRows d : ℚ)⌉).toNat ≠ 0 →
          ∃ res, split_data d t ts s = .ok res))) := by
  constructor
  · intro hn
    simp [split_data, hn]
  · intro hy h0 h1
    have hts : ¬(ts ≤ 0 ∨ 1 ≤ ts) := by
      push_neg
      exact ⟨h0, h1⟩
    have hcm : ceilMulNat ts (nRows d) = (⌈ts * (nRows d : ℚ)⌉).toNat := by
      rw [← ceilMulNat_eq_ceil ts h0.le (nRows d)]
      simp
    constructor
    · intro hz
      rw [← hcm] at hz
      simp [split_data, hy, hts, hz]
    · intro hnz
      rw [← hcm] at hnz
      refine ⟨(selectRows (dropCol d t)
          ((rngPermutation s (nRows d)).drop (ceilMulNat ts (nRows d))),
        selectRows (dropCol d t)
          ((rngPermutation s (nRows d)).take (ceilMulNat ts (nRows d))),
        selectVals y
          ((rngPermutation s (nRows d)).drop (ceilMulNat ts (nRows d))),
        selectVals y
          ((rngPermutation s (nRows d)).take (ceilMulNat ts (nRows d)))), ?_⟩
      simp [split_data, hy, hts, hnz]

/-- C1 counterexample: on a table lacking the target column the
Splitter fails with a KeyError kind, so the claim that this failure
is of a ValueError kind is false at this input. -/
theorem split_data_missing_target_not_valueError :
    split_data [("Amount", [Value.int 3])] "Fraudulent" oneFifth 42
        = .error .keyError ∧
    split_data [("Amount", [Value.int 3])] "Fraudulent" oneFifth 42
        ≠ .error .valueError := ⟨by decide, by decide⟩

/-- C1 witness: the three amended failure/success modes at concrete
inputs — a missing target column (KeyError), a present target on a
one-row table (ValueError: the training partition would be empty),
and a present target on a two-row table (success). -/
theorem split_data_failure_modes_witness :
    split_data [("Amount", [Value.int 3])] "T" oneFifth 42
      = .error .keyError ∧
    split_data [("Amount", [Value.int 3]), ("T", [Value.bool true])] "T"
      oneFifth 42 = .error .valueError ∧
    ∃ res, split_data [("Amount", [Value.int 1, Value.int 2]),
        ("T", [Value.bool true, Value.bool false])] "T" oneFifth 42
      = .ok res := by
  have hb1 : (⌈oneFifth * ((1 : Nat) : ℚ)⌉).toNat = ceilMulNat oneFifth 1 := by
    rw [← ceilMulNat_eq_ceil oneFifth (by decide) 1]
    simp
  have hb2 : (⌈oneFifth * ((2 : Nat) : ℚ)⌉).toNat = ceilMulNat oneFifth 2 := by
    rw [← ceilMulNat_eq_ceil oneFifth (by decide) 2]
    simp
  refine ⟨(split_data_failure_modes [("Amount", [Value.int 3])] "T" oneFifth
      42 []).1 (by decide), ?_, ?_⟩
  · refine ((split_data_failure_modes
          [("Amount", [Value.int 3]), ("T", [Value.bool true])] "T" oneFifth
          42 [Value.bool true]).2 (by decide) (by decide) (by decide)).1 ?_
    show 1 - (⌈oneFifth * ((1 : Nat) : ℚ)⌉).toNat = 0
    rw [hb1]
    decide
  · refine ((split_data_failure_modes
          [("Amount", [Value.int 1, Value.int 2]),
            ("T", [Value.bool true, Value.bool false])] "T" oneFifth
          42 [Value.bool true, Value.bool false]).2 (by decide) (by decide)
        (by decide)).2 ?_
    show 2 - (⌈oneFifth * ((2 : Nat) : ℚ)⌉).toNat ≠ 0
    rw [hb2]
    decide

/-- C2 (amended): when the split succeeds on a table whose feature
part (the table minus the target column) is non-empty, the evaluation
partition has exactly ⌈fraction × rows⌉ rows — sklearn takes the
ceiling, not the nearest integer — and the training partition has the
remaining rows; the label vectors have the matching lengths. -/
theorem split_data_partition_sizes {d : DataFrame} {t : String} {ts : ℚ}
    {s : Nat} {Xtr Xte : DataFrame} {ytr yte : List Value}
    (h : split_data d t ts s = .ok (Xtr, Xte, ytr, yte))
    (hX : dropCol d t ≠ []) :
    nRows Xte = (⌈ts * (nRows d : ℚ)⌉).toNat ∧
    nRows Xtr = nRows d - (⌈ts * (nRows d : ℚ)⌉).toNat ∧
    yte.length = (⌈ts * (nRows d : ℚ)⌉).toNat ∧
    ytr.length = nRows d - (⌈ts * (nRows d : ℚ)⌉).toNat := by
  obtain ⟨y, hy, hts, hnz, hr⟩ := split_data_ok_inv h
  push_neg at hts
  obtain ⟨h0, h1⟩ := hts
  have hcm : ceilMulNat ts (nRows d) = (⌈ts * (nRows d : ℚ)⌉).toNat := by
    rw [← ceilMulNat_eq_ceil ts h0.le (nRows d)]
    simp
  have hlperm : (rngPermutation s (nRows d)).length = nRows d :=
    rngPermutation_length s (nRows d)
  simp only [Prod.mk.injEq] at hr
  obtain ⟨hXtr, hXte, hytr, hyte⟩ := hr
  rw [← hcm]
  refine ⟨?_, ?_, ?_, ?_⟩
  · rw [hXte, nRows_selectRows hX, List.length_take, hlperm]
    omega
  · rw [hXtr, nRows_selectRows hX, List.length_drop, hlperm]
  · rw [hyte, selectVals_length, List.length_take, hlperm]
    omega
  · rw [hytr, selectVals_length, List.length_drop, hlperm]

/-- C2 counterexample: on a two-row table at fraction 1/5 the
evaluation partition produced by the code has 1 = ⌈2/5⌉ row, while
the claimed size round(1/5 × 2) is 0, so the claim is false at this
input. -/
theorem split_data_size_not_round :
    split_data [("A", [Value.int 1, Value.int 2]),
        ("T", [Value.bool true, Value.bool false])] "T" oneFifth 42
      = .ok ([("A", [Value.int 2])], [("A", [Value.int 1])],
             [Value.bool false], [Value.bool true]) ∧
    nRows [("A", [Value.int 1])] = 1 ∧
    (round (oneFifth * ((2 : Nat) : ℚ))).toNat = 0 := by
  refine ⟨by decide, by decide, ?_⟩
  have h5 : oneFifth = (1 : ℚ) / 5 := by
    rw [show oneFifth = ((1 : ℤ) : ℚ) / ((5 : ℕ) : ℚ) from
      (Rat.num_div_den oneFifth).symm]
    norm_num
  rw [h5]
  norm_num [round_eq]

/-- C2 witness: the amended size law at the concrete two-row table
and fraction 1/5: the evaluation partition has ⌈1/5 × 2⌉ rows and the
training partition the remaining ones, for features and labels
alike. -/
theorem split_data_partition_sizes_witness :
    nRows [("A", [Value.int 1])] = (⌈oneFifth * ((2 : Nat) : ℚ)⌉).toNat ∧
    nRows [("A", [Value.int 2])] = 2 - (⌈oneFifth * ((2 : Nat) : ℚ)⌉).toNat ∧
    ([Value.bool true] : List Value).length
      = (⌈oneFifth * ((2 : Nat) : ℚ)⌉).toNat ∧
    ([Value.bool false] : List Value).length
      = 2 - (⌈oneFifth * ((2 : Nat) : ℚ)⌉).toNat :=
  @split_data_partition_sizes
    [("A", [Value.int 1, Value.int 2]), ("T", [Value.bool true, Value.bool false])]
    "T" oneFifth 42
    [("A", [Value.int 2])] [("A", [Value.int 1])]
    [Value.bool false] [Value.bool true]
    (by decide) (by decide)

theorem lookupCol_dateStage_date (df : DataFrame) (parsed : List Date) :
    lookupCol (dateStage df parsed) "Date" = none := by
  rw [dateStage, lookupCol_dropCol_self]

theorem lookupCol_dateStage_year (df : DataFrame) (parsed : List Date) :
    lookupCol (dateStage df parsed) "Year"
      = some (parsed.map fun d => Value.int d.year) := by
  rw [dateStage, lookupCol_dropCol_ne _ (by decide),
    lookupCol_updateCol_ne _ (by decide), lookupCol_updateCol_ne _ (by decide),
    lookupCol_updateCol_self]

theorem lookupCol_dateStage_month (df : DataFrame) (parsed : List Date) :
    lookupCol (dateStage df parsed) "Month"
      = some (parsed.map fun d => Value.int d.month) := by
  rw [dateStage, lookupCol_dropCol_ne _ (by decide),
    lookupCol_updateCol_ne _ (by decide), lookupCol_updateCol_self]

theorem lookupCol_dateStage_day (df : DataFrame) (parsed : List Date) :
    lookupCol (dateStage df parsed) "Day"
      = some (parsed.map fun d => Value.int d.day) := by
  rw [dateStage, lookupCol_dropCol_ne _ (by decide), lookupCol_updateCol_self]

/-- On success of the Preprocessor, the Location codes in the output
are exactly the label encoding of the input's Location column. -/
theorem preprocess_lookup_loc {df out : DataFrame}
    (h : preprocess_data df = .ok out) :
    ∃ locCol locEnc, lookupCol df "Location" = some locCol ∧
      labelEncode locCol = .ok locEnc ∧
      lookupCol out "Location" = some locEnc := by
  obtain ⟨dc, parsed, locCol, locEnc, stoCol, stoEnc, hdc, hp, hloc, hle,
    hsto, hse, hout⟩ := preprocess_data_ok_inv h
  rw [lookupCol_dateStage_ne (by decide) (by decide) (by decide) (by decide)]
    at hloc
  refine ⟨locCol, locEnc, hloc, hle, ?_⟩
  rw [hout, lookupCol_updateCol_ne _ (by decide), lookupCol_updateCol_self]

/-- On success of the Preprocessor, the Store codes in the output are
exactly the label encoding of the input's Store column. -/
theorem preprocess_lookup_sto {df out : DataFrame}
    (h : preprocess_data df = .ok out) :
    ∃ stoCol stoEnc, lookupCol df "Store" = some stoCol ∧
      labelEncode stoCol = .ok stoEnc ∧
      lookupCol out "Store" = some stoEnc := by
  obtain ⟨dc, parsed, locCol, locEnc, stoCol, stoEnc, hdc, hp, hloc, hle,
    hsto, hse, hout⟩ := preprocess_data_ok_inv h
  rw [lookupCol_updateCol_ne _ (by decide),
    lookupCol_dateStage_ne (by decide) (by decide) (by decide) (by decide)]
    at hsto
  refine ⟨stoCol, stoEnc, hsto, hse, ?_⟩
  rw [hout, lookupCol_updateCol_self]

/-- C7: the Location and Store columns are encoded by independently
fitted encoders: whenever two record tables agree on their Store
column — whatever their Location columns are — the Preprocessor
assigns both the same Store codes, and symmetrically for Location
with respect to Store. -/
theorem preprocess_encoders_independent (d1 d2 o1 o2 : DataFrame)
    (h1 : preprocess_data d1 = .ok o1) (h2 : preprocess_data d2 = .ok o2) :
    (lookupCol d1 "Store" = lookupCol d2 "Store" →
      lookupCol o1 "Store" = lookupCol o2 "Store") ∧
    (lookupCol d1 "Location" = lookupCol d2 "Location" →
      lookupCol o1 "Location" = lookupCol o2 "Location") := by
  constructor
  · intro hS
    obtain ⟨sc1, se1, ha1, hb1, hc1⟩ := preprocess_lookup_sto h1
    obtain ⟨sc2, se2, ha2, hb2, hc2⟩ := preprocess_lookup_sto h2
    rw [ha1, ha2] at hS
    have hsc : sc1 = sc2 := Option.some.inj hS
    subst hsc
    rw [hb1] at hb2
    have hse : se1 = se2 := Except.ok.inj hb2
    rw [hc1, hc2, hse]
  · intro hL
    obtain ⟨lc1, le1, ha1, hb1, hc1⟩ := preprocess_lookup_loc h1
    obtain ⟨lc2, le2, ha2, hb2, hc2⟩ := preprocess_lookup_loc h2
    rw [ha1, ha2] at hL
    have hlc : lc1 = lc2 := Option.some.inj hL
    subst hlc
    rw [hb1] at hb2
    have hle : le1 = le2 := Except.ok.inj hb2
    rw [hc1, hc2, hle]

/-- C7 witness: two one-row tables that share the Store column but
differ in the Location column get identical Store codes from the
Preprocessor. -/
theorem preprocess_encoders_independent_witness :
    lookupCol [("Amount", [Value.int 5]), ("Location", [Value.int 0]),
        ("Store", [Value.int 0]), ("Fraudulent", [Value.bool true]),
        ("Year", [Value.int 2023]), ("Month", [Value.int 1]),
        ("Day", [Value.int 2])] "Store"
      = lookupCol [("Amount", [Value.int 5]), ("Location", [Value.int 0]),
        ("Store", [Value.int 0]), ("Fraudulent", [Value.bool true]),
        ("Year", [Value.int 2023]), ("Month", [Value.int 1]),
        ("Day", [Value.int 2])] "Store" :=
  (preprocess_encoders_independent
    [("Date", [Value.str "2023-01-02"]), ("Amount", [Value.int 5]),
      ("Location", [Value.str "X"]), ("Store", [Value.str "S"]),
      ("Fraudulent", [Value.bool true])]
    [("Date", [Value.str "2023-01-02"]), ("Amount", [Value.int 5]),
      ("Location", [Value.str "Y"]), ("Store", [Value.str "S"]),
      ("Fraudulent", [Value.bool true])]
    [("Amount", [Value.int 5]), ("Location", [Value.int 0]),
      ("Store", [Value.int 0]), ("Fraudulent", [Value.bool true]),
      ("Year", [Value.int 2023]), ("Month", [Value.int 1]),
      ("Day", [Value.int 2])]
    [("Amount", [Value.int 5]), ("Location", [Value.int 0]),
      ("Store", [Value.int 0]), ("Fraudulent", [Value.bool true]),
      ("Year", [Value.int 2023]), ("Month", [Value.int 1]),
      ("Day", [Value.int 2])]
    (by decide) (by decide)).1 (by decide)

theorem getD_map_of_lt {α β : Type} (f : α → β) (l : List α) (d : β) (d' : α)
    {i : Nat} (h : i < l.length) : (l.map f).getD i d = f (l.getD i d') := by
  rw [List.getD_eq_getElem (l.map f) d (by simpa using h),
    List.getD_eq_getElem l d' h, List.getElem_map]

/-- C3: on any record table whose Date column parses completely (the
Preprocessor succeeded), the output has no Date column and has
Year/Month/Day columns that, row by row, carry exactly the year,
month and day of that row's parsed original date. -/
theorem preprocess_reconstructs_date {df out : DataFrame}
    {dateCol : List Value} (h : preprocess_data df = .ok out)
    (hdc : lookupCol df "Date" = some dateCol) :
    lookupCol out "Date" = none ∧
    ∃ ys ms ds, lookupCol out "Year" = some ys ∧
      lookupCol out "Month" = some ms ∧ lookupCol out "Day" = some ds ∧
      ys.length = dateCol.length ∧ ms.length = dateCol.length ∧
      ds.length = dateCol.length ∧
      ∀ i, i < dateCol.length → ∃ di : Date,
        parseCell (dateCol.getD i (Value.int 0)) = .ok di ∧
        ys.getD i (Value.int 0) = Value.int di.year ∧
        ms.getD i (Value.int 0) = Value.int di.month ∧
        ds.getD i (Value.int 0) = Value.int di.day := by
  obtain ⟨dc, parsed, locCol, locEnc, stoCol, stoEnc, hdc', hp, hloc, hle,
    hsto, hse, hout⟩ := preprocess_data_ok_inv h
  rw [hdc] at hdc'
  obtain rfl : dateCol = dc := Option.some.inj hdc'
  have hplen : parsed.length = dateCol.length := parseDates_ok_length hp
  constructor
  · rw [hout, lookupCol_updateCol_ne _ (by decide),
      lookupCol_updateCol_ne _ (by decide), lookupCol_dateStage_date]
  · refine ⟨parsed.map (fun d => Value.int d.year),
      parsed.map (fun d => Value.int d.month),
      parsed.map (fun d => Value.int d.day), ?_, ?_, ?_,
      by simp [hplen], by simp [hplen], by simp [hplen], ?_⟩
    · rw [hout, lookupCol_updateCol_ne _ (by decide),
        lookupCol_updateCol_ne _ (by decide), lookupCol_dateStage_year]
    · rw [hout, lookupCol_updateCol_ne _ (by decide),
        lookupCol_updateCol_ne _ (by decide), lookupCol_dateStage_month]
    · rw [hout, lookupCol_updateCol_ne _ (by decide),
        lookupCol_updateCol_ne _ (by decide), lookupCol_dateStage_day]
    · intro i hi
      have hip : i < parsed.length := by omega
      refine ⟨parsed.getD i ⟨0, 0, 0⟩, parseDates_ok_get hp i hi, ?_, ?_, ?_⟩
      · rw [getD_map_of_lt _ parsed (Value.int 0) ⟨0, 0, 0⟩ hip]
      · rw [getD_map_of_lt _ parsed (Value.int 0) ⟨0, 0, 0⟩ hip]
      · rw [getD_map_of_lt _ parsed (Value.int 0) ⟨0, 0, 0⟩ hip]

/-- C3 witness: a one-row record table with Date `2023-01-02`; the
output has no Date column and its Year/Month/Day columns reconstruct
the parsed date. -/
theorem preprocess_reconstructs_date_witness :
    lookupCol [("Amount", [Value.int 5]), ("Location", [Value.int 0]),
        ("Store", [Value.int 0]), ("Fraudulent", [Value.bool true]),
        ("Year", [Value.int 2023]), ("Month", [Value.int 1]),
        ("Day", [Value.int 2])] "Date" = none ∧
    ∃ ys ms ds,
      lookupCol [("Amount", [Value.int 5]), ("Location", [Value.int 0]),
        ("Store", [Value.int 0]), ("Fraudulent", [Value.bool true]),
        ("Year", [Value.int 2023]), ("Month", [Value.int 1]),
        ("Day", [Value.int 2])] "Year" = some ys ∧
      lookupCol [("Amount", [Value.int 5]), ("Location", [Value.int 0]),
        ("Store", [Value.int 0]), ("Fraudulent", [Value.bool true]),
        ("Year", [Value.int 2023]), ("Month", [Value.int 1]),
        ("Day", [Value.int 2])] "Month" = some ms ∧
      lookupCol [("Amount", [Value.int 5]), ("Location", [Value.int 0]),
        ("Store", [Value.int 0]), ("Fraudulent", [Value.bool true]),
        ("Year", [Value.int 2023]), ("Month", [Value.int 1]),
        ("Day", [Value.int 2])] "Day" = some ds ∧
      ys.length = [Value.str "2023-01-02"].length ∧
      ms.length = [Value.str "2023-01-02"].length ∧
      ds.length = [Value.str "2023-01-02"].length ∧
      ∀ i, i < [Value.str "2023-01-02"].length → ∃ di : Date,
        parseCell ([Value.str "2023-01-02"].getD i (Value.int 0)) = .ok di ∧
        ys.getD i (Value.int 0) = Value.int di.year ∧
        ms.getD i (Value.int 0) = Value.int di.month ∧
        ds.getD i (Value.int 0) = Value.int di.day :=
  @preprocess_reconstructs_date
    [("Date", [Value.str "2023-01-02"]), ("Amount", [Value.int 5]),
      ("Location", [Value.str "X"]), ("Store", [Value.str "S"]),
      ("Fraudulent", [Value.bool true])]
    [("Amount", [Value.int 5]), ("Location", [Value.int 0]),
      ("Store", [Value.int 0]), ("Fraudulent", [Value.bool true]),
      ("Year", [Value.int 2023]), ("Month", [Value.int 1]),
      ("Day", [Value.int 2])]
    [Value.str "2023-01-02"] (by decide) (by decide)

/-- C10: at the value level the Preprocessor leaves every column
other than Date, Location and Store untouched: on the record schema
it keeps Amount and Fraudulent unchanged, preserves the column order,
drops Date and appends Year, Month, Day at the end.  (The Python
function mutates its argument in place and returns that same object;
object identity is not expressible in this value-level embedding,
which models the returned table.) -/
theorem preprocess_frame_effect {df out : DataFrame}
    (hcols : df.map Prod.fst
      = ["Date", "Amount", "Location", "Store", "Fraudulent"])
    (h : preprocess_data df = .ok out) :
    out.map Prod.fst
      = ["Amount", "Location", "Store", "Fraudulent", "Year", "Month", "Day"] ∧
    lookupCol out "Amount" = lookupCol df "Amount" ∧
    lookupCol out "Fraudulent" = lookupCol df "Fraudulent" := by
  obtain ⟨dc, parsed, locCol, locEnc, stoCol, stoEnc, hdc, hp, hloc, hle,
    hsto, hse, hout⟩ := preprocess_data_ok_inv h
  rcases df with _ | ⟨⟨n1, v1⟩, _ | ⟨⟨n2, v2⟩, _ | ⟨⟨n3, v3⟩,
    _ | ⟨⟨n4, v4⟩, _ | ⟨⟨n5, v5⟩, rest⟩⟩⟩⟩⟩
  · simp at hcols
  · simp at hcols
  · simp at hcols
  · simp at hcols
  · simp at hcols
  · simp only [List.map_cons, List.cons.injEq] at hcols
    obtain ⟨rfl, rfl, rfl, rfl, rfl, hrest⟩ := hcols
    have hrest' : rest = [] := List.map_eq_nil_iff.mp hrest
    subst hrest'
    subst hout
    refine ⟨?_, ?_, ?_⟩
    · simp [dateStage, updateCol, dropCol]
    · simp [dateStage, updateCol, dropCol, lookupCol]
    · simp [dateStage, updateCol, dropCol, lookupCol]

/-- C10 witness: the frame conditions at a concrete one-row record
table. -/
theorem preprocess_frame_effect_witness :
    ([("Amount", [Value.int 5]), ("Location", [Value.int 0]),
        ("Store", [Value.int 0]), ("Fraudulent", [Value.bool true]),
        ("Year", [Value.int 2023]), ("Month", [Value.int 1]),
        ("Day", [Value.int 2])] : DataFrame).map Prod.fst
      = ["Amount", "Location", "Store", "Fraudulent", "Year", "Month", "Day"] ∧
    lookupCol [("Amount", [Value.int 5]), ("Location", [Value.int 0]),
        ("Store", [Value.int 0]), ("Fraudulent", [Value.bool true]),
        ("Year", [Value.int 2023]), ("Month", [Value.int 1]),
        ("Day", [Value.int 2])] "Amount"
      = lookupCol [("Date", [Value.str "2023-01-02"]),
          ("Amount", [Value.int 5]), ("Location", [Value.str "X"]),
          ("Store", [Value.str "S"]), ("Fraudulent", [Value.bool true])]
          "Amount" ∧
    lookupCol [("Amount", [Value.int 5]), ("Location", [Value.int 0]),
        ("Store", [Value.int 0]), ("Fraudulent", [Value.bool true]),
        ("Year", [Value.int 2023]), ("Month", [Value.int 1]),
        ("Day", [Value.int 2])] "Fraudulent"
      = lookupCol [("Date", [Value.str "2023-01-02"]),
          ("Amount", [Value.int 5]), ("Location", [Value.str "X"]),
          ("Store", [Value.str "S"]), ("Fraudulent", [Value.bool true])]
          "Fraudulent" :=
  @preprocess_frame_effect
    [("Date", [Value.str "2023-01-02"]), ("Amount", [Value.int 5]),
      ("Location", [Value.str "X"]), ("Store", [Value.str "S"]),
      ("Fraudulent", [Value.bool true])]
    [("Amount", [Value.int 5]), ("Location", [Value.int 0]),
      ("Store", [Value.int 0]), ("Fraudulent", [Value.bool true]),
      ("Year", [Value.int 2023]), ("Month", [Value.int 1]),
      ("Day", [Value.int 2])]
    (by decide) (by decide)

/-- C8: row alignment between features and labels is preserved by
every transformation.  Through preprocessing the label column is
untouched and the row count is unchanged, so the i-th feature row
still faces the i-th label; through splitting, each partition's
features and labels are selected from the input by one and the same
list of (in-range) original row indices, so the i-th row of a
partition's feature matrix and the i-th entry of its label vector
come from the same original record. -/
theorem pipeline_row_alignment :
    (∀ (df out : DataFrame), WF df → preprocess_data df = .ok out →
      nRows out = nRows df ∧
      lookupCol out "Fraudulent" = lookupCol df "Fraudulent") ∧
    (∀ (d : DataFrame) (t : String) (ts : ℚ) (s : Nat)
        (Xtr Xte : DataFrame) (ytr yte : List Value),
      split_data d t ts s = .ok (Xtr, Xte, ytr, yte) →
      ∃ y trIdx teIdx, lookupCol d t = some y ∧
        (∀ i ∈ trIdx, i < nRows d) ∧ (∀ i ∈ teIdx, i < nRows d) ∧
        Xtr = selectRows (dropCol d t) trIdx ∧ ytr = selectVals y trIdx ∧
        Xte = selectRows (dropCol d t) teIdx ∧ yte = selectVals y teIdx) := by
  constructor
  · intro df out hwf h
    obtain ⟨dc, parsed, locCol, locEnc, stoCol, stoEnc, hdc, hp, hloc, hle,
      hsto, hse, hout⟩ := preprocess_data_ok_inv h
    have h5 : ∀ c ∈ dateStage df parsed, c.2.length = nRows df :=
      all_length_dateStage hdc hp hwf
    have hlocCol : locCol.length = nRows df := h5 _ (lookupCol_mem hloc)
    have h6 : ∀ c ∈ updateCol (dateStage df parsed) "Location" locEnc,
        c.2.length = nRows df :=
      all_length_updateCol h5 (by rw [labelEncode_ok_length hle, hlocCol])
    have hstoCol : stoCol.length = nRows df := h6 _ (lookupCol_mem hsto)
    have h7 : ∀ c ∈ out, c.2.length = nRows df := by
      rw [hout]
      exact all_length_updateCol h6
        (by rw [labelEncode_ok_length hse, hstoCol])
    have hne : out ≠ [] := by
      intro hnil
      have hso : lookupCol out "Store" = some stoEnc := by
        rw [hout, lookupCol_updateCol_self]
      rw [hnil] at hso
      simp [lookupCol] at hso
    refine ⟨nRows_eq_of_all hne h7, ?_⟩
    rw [hout, lookupCol_updateCol_ne _ (by decide),
      lookupCol_updateCol_ne _ (by decide),
      lookupCol_dateStage_ne (by decide) (by decide) (by decide) (by decide)]
  · intro d t ts s Xtr Xte ytr yte h
    obtain ⟨y, hy, hts, hnz, hr⟩ := split_data_ok_inv h
    simp only [Prod.mk.injEq] at hr
    obtain ⟨hXtr, hXte, hytr, hyte⟩ := hr
    refine ⟨y,
      (rngPermutation s (nRows d)).drop (ceilMulNat ts (nRows d)),
      (rngPermutation s (nRows d)).take (ceilMulNat ts (nRows d)),
      hy, ?_, ?_, hXtr, hytr, hXte, hyte⟩
    · intro i hi
      exact rngPermutation_mem (List.mem_of_mem_drop hi)
    · intro i hi
      exact rngPermutation_mem (List.mem_of_mem_take hi)

/-- C8 witness: the preprocessing half at a concrete one-row record
table, and the splitting half at a concrete two-row table. -/
theorem pipeline_row_alignment_witness :
    (nRows [("Amount", [Value.int 5]), ("Location", [Value.int 0]),
        ("Store", [Value.int 0]), ("Fraudulent", [Value.bool true]),
        ("Year", [Value.int 2023]), ("Month", [Value.int 1]),
        ("Day", [Value.int 2])]
      = nRows [("Date", [Value.str "2023-01-02"]), ("Amount", [Value.int 5]),
          ("Location", [Value.str "X"]), ("Store", [Value.str "S"]),
          ("Fraudulent", [Value.bool true])] ∧
      lookupCol [("Amount", [Value.int 5]), ("Location", [Value.int 0]),
          ("Store", [Value.int 0]), ("Fraudulent", [Value.bool true]),
          ("Year", [Value.int 2023]), ("Month", [Value.int 1]),
          ("Day", [Value.int 2])] "Fraudulent"
        = lookupCol [("Date", [Value.str "2023-01-02"]),
            ("Amount", [Value.int 5]), ("Location", [Value.str "X"]),
            ("Store", [Value.str "S"]), ("Fraudulent", [Value.bool true])]
            "Fraudulent") ∧
    (∃ y trIdx teIdx,
      lookupCol [("A", [Value.int 1, Value.int 2]),
          ("T", [Value.bool true, Value.bool false])] "T" = some y ∧
      (∀ i ∈ trIdx, i < nRows [("A", [Value.int 1, Value.int 2]),
          ("T", [Value.bool true, Value.bool false])]) ∧
      (∀ i ∈ teIdx, i < nRows [("A", [Value.int 1, Value.int 2]),
          ("T", [Value.bool true, Value.bool false])]) ∧
      [("A", [Value.int 2])] = selectRows
        (dropCol [("A", [Value.int 1, Value.int 2]),
          ("T", [Value.bool true, Value.bool false])] "T") trIdx ∧
      [Value.bool false] = selectVals y trIdx ∧
      [("A", [Value.int 1])] = selectRows
        (dropCol [("A", [Value.int 1, Value.int 2]),
          ("T", [Value.bool true, Value.bool false])] "T") teIdx ∧
      [Value.bool true] = selectVals y teIdx) :=
  ⟨pipeline_row_alignment.1
      [("Date", [Value.str "2023-01-02"]), ("Amount", [Value.int 5]),
        ("Location", [Value.str "X"]), ("Store", [Value.str "S"]),
        ("Fraudulent", [Value.bool true])]
      [("Amount", [Value.int 5]), ("Location", [Value.int 0]),
        ("Store", [Value.int 0]), ("Fraudulent", [Value.bool true]),
        ("Year", [Value.int 2023]), ("Month", [Value.int 1]),
        ("Day", [Value.int 2])]
      (by decide) (by decide),
    pipeline_row_alignment.2
      [("A", [Value.int 1, Value.int 2]),
        ("T", [Value.bool true, Value.bool false])]
      "T" oneFifth 42 [("A", [Value.int 2])] [("A", [Value.int 1])]
      [Value.bool false] [Value.bool true] (by decide)⟩

theorem countP_zip_map_range (P : Value × Value → Bool) :
    ∀ (y : List Value) (f : Nat → Value),
      (((List.range y.length).map f).zip y).countP P
        = (List.range y.length).countP
            (fun i => P (f i, y.getD i (Value.int 0))) := by
  intro y
  induction y with
  | nil => intro f; simp
  | cons a yt ih =>
    intro f
    rw [List.length_cons, List.range_succ_eq_map, List.map_cons,
      List.map_map, List.zip_cons_cons, List.countP_cons,
      List.countP_cons, List.countP_map, ih (f ∘ Nat.succ)]
    have h1 : List.countP
          (fun i => P ((f ∘ Nat.succ) i, yt.getD i (Value.int 0)))
          (List.range yt.length)
        = List.countP
          ((fun i => P (f i, (a :: yt).getD i (Value.int 0))) ∘ Nat.succ)
          (List.range yt.length) :=
      List.countP_congr (fun i _ => by simp [Function.comp])
    rw [h1]
    rfl

/-- C4: the Evaluator (`model.score`) returns exactly the fraction of
evaluation rows whose predicted label equals the true label, and this
scalar lies in [0, 1]. -/
theorem test_model_accuracy (m : Model) (X : DataFrame) (y : List Value)
    (hlen : nRows X = y.length) (hy : y ≠ []) :
    test_model m X y
      = ((List.range y.length).countP
          (fun i => decide (m.predict (rowAt X i) = y.getD i (Value.int 0))) : ℚ)
        / (y.length : ℚ) ∧
    0 ≤ test_model m X y ∧ test_model m X y ≤ 1 := by
  have hn : 0 < y.length := List.length_pos.mpr hy
  have hmain : test_model m X y
      = ((List.range y.length).countP
          (fun i => decide (m.predict (rowAt X i) = y.getD i (Value.int 0))) : ℚ)
        / (y.length : ℚ) := by
    rw [test_model, hlen, countP_zip_map_range]
  refine ⟨hmain, ?_, ?_⟩
  · rw [hmain]
    positivity
  · rw [hmain]
    rw [div_le_one (by exact_mod_cast hn)]
    have hc : (List.range y.length).countP
        (fun i => decide (m.predict (rowAt X i) = y.getD i (Value.int 0)))
        ≤ y.length := by
      calc (List.range y.length).countP
            (fun i => decide (m.predict (rowAt X i) = y.getD i (Value.int 0)))
          ≤ (List.range y.length).length := List.countP_le_length _
        _ = y.length := List.length_range _
    exact_mod_cast hc

/-- C4 witness: a concrete classifier and one-row evaluation set. -/
theorem test_model_accuracy_witness :
    test_model ⟨[1], 0, [Value.bool false, Value.bool true]⟩
        [("A", [Value.int 1])] [Value.bool true]
      = ((List.range ([Value.bool true] : List Value).length).countP
          (fun i => decide
            ((⟨[1], 0, [Value.bool false, Value.bool true]⟩ : Model).predict
                (rowAt [("A", [Value.int 1])] i)
              = ([Value.bool true] : List Value).getD i (Value.int 0))) : ℚ)
        / (([Value.bool true] : List Value).length : ℚ) ∧
    0 ≤ test_model ⟨[1], 0, [Value.bool false, Value.bool true]⟩
        [("A", [Value.int 1])] [Value.bool true] ∧
    test_model ⟨[1], 0, [Value.bool false, Value.bool true]⟩
        [("A", [Value.int 1])] [Value.bool true] ≤ 1 :=
  test_model_accuracy ⟨[1], 0, [Value.bool false, Value.bool true]⟩
    [("A", [Value.int 1])] [Value.bool true] (by decide) (by decide)
